import Mathlib

/-!
Shallow embedding of the tool-call orchestration and client observer layer of
the curling analytics chat application (src/tools.ts and src/server.ts).

The tool `execute` functions, the client observer `useEffect` that projects
`output-available` tool parts into local UI state, the `handleShotQuery`
fetch-result application, the SELECT guard of `queryDatabase`, the
spec-modelled message sanitizer and the spec-modelled bounded step loop are
translated into total Lean functions.  External collaborators (the D1
database, the fetch endpoint) are modelled as explicit behaviour values.

React state semantics of the observer effect are modelled faithfully: the
dedup guard `processedToolCalls.has(toolCallId)` reads the state snapshot
captured at the start of the effect run (the render-scope closure value),
while the functional updates `setProcessedToolCalls((prev) => new Set(prev)
.add(id))` compose sequentially and the plain `setCurrentShot(v)` /
`setShotId(v)` updates are last-write-wins; both are reproduced by threading
the state through the fold while keeping the guard on the fixed snapshot.
-/

namespace Curling

/-- Stone colour as constrained by the `z.enum(["red", "yellow"])` input schema. -/
inductive StoneColor
  | red
  | yellow
  deriving DecidableEq, Repr

/-- A stone position as carried by tool inputs and the `stone_positions` rows:
colour plus x/y coordinates relative to the button (REAL columns, modelled as `Rat`). -/
structure Stone where
  color : StoneColor
  x : Rat
  y : Rat
  deriving DecidableEq, Repr

/-- The joined shot record returned by the shot-details query, with the fields the
client `ShotData` interface declares (src/server.ts lines 247-259). -/
structure ShotRecord where
  shot_id : Int
  shot_number : Int
  shot_color : String
  shot_team : String
  player_name : String
  shot_type : String
  turn : String
  percent_score : Rat
  end_number : Int
  color_hammer : String
  event_name : String
  deriving DecidableEq, Repr

/-- The `visualization` payload produced by `visualizeCurlingShot.execute`. -/
structure Visualization where
  shotId : Int
  player : String
  team : String
  shotType : String
  stones : List Stone
  deriving DecidableEq, Repr

/-- A generic result row of `queryDatabase` (column name / value pairs). -/
abbrev Row := List (String × String)

/-- The JSON-serializable output object of a tool `execute` call, as read back
untyped by the client observer.  Fields absent from the result of a given tool keep
their default (`none` / `false`), mirroring absent JSON properties. -/
structure ToolOutput where
  success : Bool := false
  error : Option String := none
  message : Option String := none
  visualization : Option Visualization := none
  updateShotId : Bool := false
  shotId : Option Int := none
  rows : Option (List Row) := none
  count : Option Nat := none
  meta : Option String := none
  shot : Option ShotRecord := none
  stones : Option (List Stone) := none
  deriving DecidableEq, Repr

/-- State of a `ToolInvocationPart` in the UI message stream. -/
inductive PartState
  | inputStreaming
  | inputAvailable
  | outputAvailable
  | outputError
  deriving DecidableEq, Repr

/-- A tool-invocation UI part: `part.type` is the string `tool-` followed by the
tool name, `toolCallId` identifies the call, `output` is meaningful in the
`outputAvailable` state. -/
structure ToolPart where
  toolType : String
  toolCallId : String
  state : PartState
  output : ToolOutput
  deriving DecidableEq, Repr

/-- A message part: text or tool invocation. -/
inductive MsgPart
  | text (content : String)
  | tool (tp : ToolPart)
  deriving DecidableEq, Repr

/-- Message role. -/
inductive Role
  | user
  | assistant
  | system
  deriving DecidableEq, Repr

/-- A UI message: id, role and ordered parts. -/
structure Message where
  id : String
  role : Role
  parts : List MsgPart
  deriving DecidableEq, Repr

/-- The `shotInfo` projection built by the observer from a visualization payload. -/
structure ShotInfo where
  player : String
  team : String
  type : String
  shotId : Int
  deriving DecidableEq, Repr

/-- The client `CurrentShot` value (all fields optional in the TS interface). -/
structure CurrentShot where
  stones : Option (List Stone)
  shot : Option ShotRecord
  shotInfo : Option ShotInfo
  deriving DecidableEq, Repr

/-- The client state touched by the observer: `currentShot` (VisualizationState),
the tracked shot identifier (`useState(42)`, `none` models a non-numeric value),
and ProcessedCallSet, modelled as a duplicate-free list. -/
structure UIState where
  currentShot : Option CurrentShot
  shotId : Option Int
  processedToolCalls : List String
  deriving DecidableEq, Repr

/-- Initial client state: no shot loaded, shot id 42, empty ProcessedCallSet. -/
def initialUIState : UIState :=
  { currentShot := none, shotId := some 42, processedToolCalls := [] }

/-- Boolean membership in a list of call ids (the `Set.has` test). -/
def memStr (x : String) : List String → Bool
  | [] => false
  | y :: ys => if x = y then true else memStr x ys

/-- The effect of `new Set(prev).add(id)`: adding an id already present leaves
the set unchanged. -/
def addProcessed (l : List String) (id : String) : List String :=
  if memStr id l then l else l ++ [id]

/-- The body of the `/api/shot` fetch response as consumed by `handleShotQuery`. -/
structure ShotData where
  success : Bool := false
  shot : Option ShotRecord := none
  stones : Option (List Stone) := none
  error : Option String := none
  deriving DecidableEq, Repr

/-- Outcome of the `fetch` call in `handleShotQuery`: a parsed response or a
thrown error (network failure etc.), whose message the catch branch reports. -/
inductive FetchOutcome
  | ok (data : ShotData)
  | threw (msg : String)
  deriving DecidableEq, Repr

/-- JS template interpolation of a possibly-undefined number. -/
def jsNumStr : Option Int → String
  | some n => toString n
  | none => "undefined"

/-- JS `a || b` on an optional string: an absent or empty string falls back. -/
def jsOrStr (o : Option String) (d : String) : String :=
  match o with
  | some e => if e = "" then d else e
  | none => d

/-- Application of one `handleShotQuery` outcome to client state
(src/server.ts lines 364-420).  On a successful response carrying a shot and
stones the response object replaces `currentShot` wholesale (its `shotInfo`
property is absent); otherwise the state is untouched and an error text is
sent to the chat, returned here as the second component. -/
def handleShotQuery (sid : Option Int) (outcome : FetchOutcome) (s : UIState) :
    UIState × Option String :=
  match outcome with
  | .ok data =>
    if data.success && data.shot.isSome && data.stones.isSome then
      ({ s with currentShot := some { stones := data.stones, shot := data.shot, shotInfo := none } },
       none)
    else
      (s, some ("Error: " ++ jsOrStr data.error ("Shot " ++ jsNumStr sid ++ " not found")))
  | .threw msg =>
      (s, some ("Error querying shot " ++ jsNumStr sid ++ ": " ++ msg))

/-- The `output-available` tool parts of all assistant messages, in order —
exactly the parts the observer effect dispatches on (src/server.ts 435-502). -/
def outputParts (msgs : List Message) : List ToolPart :=
  (msgs.filter (fun m => m.role = Role.assistant)).flatMap (fun m =>
    m.parts.filterMap (fun p =>
      match p with
      | .tool tp => if tp.state = PartState.outputAvailable then some tp else none
      | .text _ => none))

/-- Accumulated result of one observer pass: the threaded client state, the
ids dispatched (one entry per accepted application to VisualizationState /
the tracked shot id, in order), and the dependent fetches issued by the
`tool-setShotId` branch (the argument of each `handleShotQuery` call). -/
structure PassAcc where
  state : UIState
  dispatched : List String
  fetches : List (Option Int)
  deriving DecidableEq, Repr

/-- The `tool-visualizeCurlingShot` block of the observer (src/server.ts
453-482): on `result?.success && result?.visualization` the visualization
payload replaces `currentShot` wholesale and the call id is added to
ProcessedCallSet. -/
def visBranch (acc : PassAcc) (tp : ToolPart) : PassAcc :=
  match tp.output.visualization with
  | some viz =>
    if tp.toolType = "tool-visualizeCurlingShot" ∧ tp.output.success = true then
      { state :=
          { acc.state with
              currentShot := some
                { stones := some viz.stones
                  shot := none
                  shotInfo := some
                    { player := viz.player, team := viz.team
                      type := viz.shotType, shotId := viz.shotId } }
              processedToolCalls := addProcessed acc.state.processedToolCalls tp.toolCallId }
        dispatched := acc.dispatched ++ [tp.toolCallId]
        fetches := acc.fetches }
    else acc
  | none => acc

/-- The `tool-setShotId` block of the observer (src/server.ts 484-497): on
`result?.success && result?.updateShotId` the tracked shot id is updated, one
dependent `handleShotQuery` fetch is issued, and the call id is added to
ProcessedCallSet. -/
def setBranch (acc : PassAcc) (tp : ToolPart) : PassAcc :=
  if tp.toolType = "tool-setShotId" ∧ tp.output.success = true
      ∧ tp.output.updateShotId = true then
    { state :=
        { acc.state with
            shotId := tp.output.shotId
            processedToolCalls := addProcessed acc.state.processedToolCalls tp.toolCallId }
      dispatched := acc.dispatched ++ [tp.toolCallId]
      fetches := acc.fetches ++ [tp.output.shotId] }
  else acc

/-- Processing of a single `output-available` tool part by the observer effect.
`snapshot` is the ProcessedCallSet value captured at the start of the effect
run: the skip guard consults it, while the set updates thread through the
accumulator (functional React updates compose). The two `if` blocks of the
source are applied in sequence. -/
def observeToolPart (snapshot : List String) (acc : PassAcc) (tp : ToolPart) : PassAcc :=
  if memStr tp.toolCallId snapshot then acc
  else setBranch (visBranch acc tp) tp

/-- Left fold of `observeToolPart` over a part list with a fixed snapshot. -/
def observerFold (snapshot : List String) : PassAcc → List ToolPart → PassAcc
  | acc, [] => acc
  | acc, tp :: rest => observerFold snapshot (observeToolPart snapshot acc tp) rest

/-- One run of the observer effect over the received message list. -/
def observerPass (s : UIState) (msgs : List Message) : PassAcc :=
  observerFold s.processedToolCalls
    { state := s, dispatched := [], fetches := [] } (outputParts msgs)

/-- Whether a part satisfies one of the two dispatch conditions of the observer. -/
def dispatchable (tp : ToolPart) : Bool :=
  (tp.toolType = "tool-visualizeCurlingShot" ∧ tp.output.success = true
      ∧ tp.output.visualization.isSome = true : Bool)
  || (tp.toolType = "tool-setShotId" ∧ tp.output.success = true
      ∧ tp.output.updateShotId = true : Bool)

/-- Character-level model of JS `String.prototype.trim` (leading and trailing
whitespace removed). -/
def jsTrimChars (l : List Char) : List Char :=
  ((l.dropWhile Char.isWhitespace).reverse.dropWhile Char.isWhitespace).reverse

/-- Character-level model of JS `String.prototype.toLowerCase` on ASCII input. -/
def jsLowerChars (l : List Char) : List Char :=
  l.map Char.toLower

/-- Whether `p` is a leading segment of `l` (JS `String.prototype.startsWith`). -/
def startsWithChars : List Char → List Char → Bool
  | _, [] => true
  | [], _ :: _ => false
  | b :: ls, a :: ps => a = b && startsWithChars ls ps

/-- Whether `s` is a trailing segment of `l` (JS `String.prototype.endsWith`). -/
def endsWithChars (l s : List Char) : Bool :=
  startsWithChars l.reverse s.reverse

/-- The validation of `queryDatabase.execute` (src/tools.ts line 105-106):
`query.trim().toLowerCase().startsWith("select")`. -/
def selectGuard (query : String) : Bool :=
  startsWithChars (jsLowerChars (jsTrimChars query.data)) ("select".data)

/-- Behaviour of the D1 binding for `queryDatabase`: the binding is absent, the
prepared query throws, or it returns rows and metadata. -/
inductive QueryDb
  | absent
  | throws (msg : String)
  | ok (rows : List Row) (dbMeta : String)
  deriving DecidableEq, Repr

/-- Result of running `queryDatabase.execute`: the returned payload together
with whether the database was invoked at all. -/
structure QueryRun where
  output : ToolOutput
  dbInvoked : Bool
  deriving DecidableEq, Repr

/-- `queryDatabase.execute` (src/tools.ts lines 102-144).  The SELECT guard runs
first and returns a structured error without touching the database; then the
binding check; then the query is submitted (the `bind` and no-params paths both
invoke the database), with a thrown error caught and converted to
`{success:false, error}`. -/
def queryDatabase_execute (query : String) (params : Option (List String))
    (db : QueryDb) : QueryRun :=
  if selectGuard query = false then
    { output :=
        { success := false
          error := some
            "Only SELECT queries are allowed with this tool. Use querySQLiteDatabase for other operations." }
      dbInvoked := false }
  else
    match db with
    | .absent =>
        { output :=
            { success := false
              error := some "Database not configured. Please set up D1 binding." }
          dbInvoked := false }
    | .throws msg =>
        { output := { success := false, error := some msg }, dbInvoked := true }
    | .ok rows dbMeta =>
        { output :=
            { success := true, rows := some rows, count := some rows.length
              meta := some dbMeta }
          dbInvoked := true }

/-- Behaviour of the D1 binding for `queryShotDetails`: the binding is absent,
a prepared statement throws, the shot row is absent, or the row plus the
ordered stone positions are found. -/
inductive ShotDb
  | notConfigured
  | throws (msg : String)
  | notFound
  | found (rec : ShotRecord) (stones : List Stone)
  deriving DecidableEq, Repr

/-- Whether a `ShotDb` behaviour is one of the three failure behaviours. -/
def ShotDb.isFailure : ShotDb → Bool
  | .found _ _ => false
  | _ => true

/-- The body of the `try` block of `queryShotDetails.execute`: a thrown database
error surfaces as `Except.error`. -/
def queryShotDetails_body (shotId : Int) (db : ShotDb) : Except String ToolOutput :=
  match db with
  | .notConfigured =>
      .ok { success := false
            error := some "Database not configured. Please set up D1 binding." }
  | .throws msg => .error msg
  | .notFound =>
      .ok { success := false
            error := some ("Shot with ID " ++ toString shotId ++ " not found") }
  | .found rec stones =>
      .ok { success := true, shot := some rec, stones := some stones
            count := some stones.length }

/-- `queryShotDetails.execute` (src/tools.ts lines 156-236): the catch clause
converts a thrown error into `{success:false, error}`, so the function is total
and never propagates an exception. -/
def queryShotDetails_execute (shotId : Int) (db : ShotDb) : ToolOutput :=
  match queryShotDetails_body shotId db with
  | .ok r => r
  | .error e => { success := false, error := some e }

/-- Input of `visualizeCurlingShot` as constrained by its zod schema. -/
structure VisInput where
  shotId : Int
  player : String
  team : String
  shotType : String
  stones : List Stone
  deriving DecidableEq, Repr

/-- `visualizeCurlingShot.execute` (src/tools.ts lines 263-277): always succeeds
and echoes the input fields inside the `visualization` payload. -/
def visualizeCurlingShot_execute (i : VisInput) : ToolOutput :=
  { success := true
    visualization := some
      { shotId := i.shotId, player := i.player, team := i.team
        shotType := i.shotType, stones := i.stones }
    message := some
      ("Visualized shot " ++ toString i.shotId ++ " by " ++ i.player ++ " ("
        ++ i.team ++ "): " ++ i.shotType ++ " with " ++ toString i.stones.length
        ++ " stones in play.") }

/-- `setShotId.execute` (src/tools.ts lines 293-300): always succeeds, echoes the
shot id, sets the `updateShotId` flag, and uses the reason (JS `reason || ...`,
so an absent or empty reason falls back to the default text) as message. -/
def setShotId_execute (shotId : Int) (reason : Option String) : ToolOutput :=
  { success := true
    shotId := some shotId
    message := some (jsOrStr reason ("Updated display to show shot " ++ toString shotId))
    updateShotId := true }

/-- Whether a part is an incomplete tool invocation (`input-available` with no
recorded output). -/
def isIncompleteToolPart : MsgPart → Bool
  | .tool tp => tp.state = PartState.inputAvailable
  | .text _ => false

/-- Drop the trailing incomplete tool parts from the end of one part list. -/
def cleanupParts (ps : List MsgPart) : List MsgPart :=
  (ps.reverse.dropWhile isIncompleteToolPart).reverse

/-- Modelled from the spec: the implementation of `cleanupMessages` lives in
`./utils`, which is not among the provided sources (only its call site in
src/server.ts line 51 is).  Spec section 4.1: a trailing `ToolInvocationPart`
left in `input-available` is dropped, along with the message it belongs to if
that message becomes empty; interior incomplete tool calls are left untouched.
This worker processes the history from its tail: trailing incomplete parts of
the last message are dropped; if the message becomes empty it is removed and
the scan continues with the previous message; a message that was already empty
is not an incomplete call and stops the scan. -/
def cleanupRev : List Message → List Message
  | [] => []
  | m :: rest =>
    let kept := cleanupParts m.parts
    if kept.isEmpty then
      if m.parts.isEmpty then m :: rest else cleanupRev rest
    else { m with parts := kept } :: rest

/-- Modelled from the spec: `cleanupMessages`, the MessageSanitizer of spec
section 4.1 (implementation in `./utils`, not among the provided sources). -/
def cleanupMessages (msgs : List Message) : List Message :=
  (cleanupRev msgs.reverse).reverse

/-- What the model does at a given step of the turn: emit a final answer, request
a tool call whose tool declares `execute` (run automatically), or request a call
that needs a human confirmation which is not yet available. -/
inductive StepAction
  | finish
  | toolCallAuto
  | toolCallNeedsConfirmation
  deriving DecidableEq, Repr

/-- How a turn of the step loop ended.  There is no error outcome: reaching the
step bound is a forced but normal finish (spec sections 4.3 and 7(4)). -/
inductive FinishReason
  | finishedNaturally
  | stepLimitReached
  | awaitingConfirmation
  deriving DecidableEq, Repr

/-- Modelled from the spec: the bounded model/tool step loop driven by
`streamText` inside the ai SDK — of the loop itself only the stop condition
`stopWhen: stepCountIs(10)` appears in src/server.ts line 102.  Spec section
4.3: the model alternates text and tool calls for up to the configured maximum
number of steps; each automatic call is executed and fed back before the next
step; a confirmation-requiring call without a decision halts the loop; the
loop ends when the model finishes or the step bound is reached.  `remaining`
counts steps still allowed, `done` counts steps performed. -/
def runLoop (behaviour : Nat → StepAction) : Nat → Nat → Nat × FinishReason
  | 0, done => (done, .stepLimitReached)
  | remaining + 1, done =>
    match behaviour done with
    | .finish => (done + 1, .finishedNaturally)
    | .toolCallAuto => runLoop behaviour remaining (done + 1)
    | .toolCallNeedsConfirmation => (done + 1, .awaitingConfirmation)

/-- One turn of the model loop with the configured bound `stepCountIs(10)`. -/
def modelTurn (behaviour : Nat → StepAction) : Nat × FinishReason :=
  runLoop behaviour 10 0

/-- Whether a string ends with the characters of the text `not found`. -/
def mentionsNotFound (s : String) : Bool :=
  endsWithChars s.data ("not found".data)

/-- A concrete stone layout used as sample input. -/
def sampleStones : List Stone :=
  [{ color := StoneColor.red, x := 0, y := 0 },
   { color := StoneColor.yellow, x := 1, y := 2 }]

/-- A concrete `visualizeCurlingShot` input used as sample input. -/
def sampleVisInput : VisInput :=
  { shotId := 42, player := "Anna", team := "SWE", shotType := "Draw"
    stones := sampleStones }

/-- A message list with one successful `tool-visualizeCurlingShot` result. -/
def sampleVisMsgs : List Message :=
  [{ id := "m1", role := Role.assistant
     parts := [MsgPart.tool
       { toolType := "tool-visualizeCurlingShot", toolCallId := "c1"
         state := PartState.outputAvailable
         output := visualizeCurlingShot_execute sampleVisInput }] }]

/-- A message list whose tool results all carry `success:false`. -/
def sampleFailingMsgs : List Message :=
  [{ id := "m1", role := Role.assistant
     parts := [MsgPart.tool
       { toolType := "tool-visualizeCurlingShot", toolCallId := "f1"
         state := PartState.outputAvailable
         output := { success := false, error := some "boom" } },
      MsgPart.tool
       { toolType := "tool-setShotId", toolCallId := "f2"
         state := PartState.outputAvailable
         output := { success := false } }] }]

/-- A message list whose tool results are neither `tool-visualizeCurlingShot`
nor `tool-setShotId` (including an unknown future tool). -/
def sampleOtherToolMsgs : List Message :=
  [{ id := "m1", role := Role.assistant
     parts := [MsgPart.tool
       { toolType := "tool-queryDatabase", toolCallId := "q1"
         state := PartState.outputAvailable
         output := (queryDatabase_execute "select 1" none (QueryDb.ok [] "ok")).output },
      MsgPart.tool
       { toolType := "tool-queryShotDetails", toolCallId := "q2"
         state := PartState.outputAvailable
         output := queryShotDetails_execute 1 ShotDb.notFound },
      MsgPart.tool
       { toolType := "tool-futureTool", toolCallId := "q3"
         state := PartState.outputAvailable
         output := { success := true } }] }]

/-- A client state whose ProcessedCallSet already holds the id `a`. -/
def uiStateWithA : UIState :=
  { currentShot := none, shotId := some 42, processedToolCalls := ["a"] }

lemma runLoop_le (behaviour : Nat → StepAction) :
    ∀ (remaining done : Nat), (runLoop behaviour remaining done).1 ≤ done + remaining
  | 0, _ => Nat.le_refl _
  | remaining + 1, done => by
    rw [runLoop]
    cases behaviour done with
    | finish => simp
    | toolCallAuto =>
        have h := runLoop_le behaviour remaining (done + 1)
        simpa [Nat.add_assoc, Nat.add_comm 1 remaining] using h
    | toolCallNeedsConfirmation => simp

lemma runLoop_always_auto (behaviour : Nat → StepAction)
    (h : ∀ k, behaviour k = StepAction.toolCallAuto) :
    ∀ (remaining done : Nat),
      runLoop behaviour remaining done = (done + remaining, FinishReason.stepLimitReached)
  | 0, done => by simp [runLoop]
  | remaining + 1, done => by
    rw [runLoop, h done, runLoop_always_auto behaviour h remaining (done + 1)]
    have harith : done + 1 + remaining = done + (remaining + 1) := by omega
    rw [harith]

lemma startsWithChars_nil : ∀ l : List Char, startsWithChars l [] = true
  | [] => rfl
  | _ :: _ => rfl

lemma startsWithChars_self_append : ∀ (p rest : List Char),
    startsWithChars (p ++ rest) p = true
  | [], rest => startsWithChars_nil rest
  | a :: ps, rest => by
    simp [startsWithChars, startsWithChars_self_append ps rest]

lemma endsWithChars_append (l m : List Char) : endsWithChars (l ++ m) m = true := by
  rw [endsWithChars, List.reverse_append]
  exact startsWithChars_self_append m.reverse l.reverse

lemma cleanupParts_idem (ps : List MsgPart) :
    cleanupParts (cleanupParts ps) = cleanupParts ps := by
  simp [cleanupParts, List.dropWhile_idempotent]

lemma cleanupRev_idem : ∀ l : List Message, cleanupRev (cleanupRev l) = cleanupRev l
  | [] => rfl
  | m :: rest => by
    by_cases hk : (cleanupParts m.parts).isEmpty
    · by_cases hp : m.parts.isEmpty
      · simp [cleanupRev, hk, hp]
      · simp only [cleanupRev, hk, hp, if_true, if_false, ite_true, ite_false]
        simpa [hk, hp] using cleanupRev_idem rest
    · simp [cleanupRev, hk, cleanupParts_idem]

lemma memStr_append (x : String) : ∀ (l₁ l₂ : List String),
    memStr x (l₁ ++ l₂) = (memStr x l₁ || memStr x l₂)
  | [], _ => by simp [memStr]
  | y :: ys, l₂ => by
    by_cases h : x = y
    · simp [memStr, h]
    · simp only [List.cons_append, memStr, if_neg h]
      exact memStr_append x ys l₂

lemma addProcessed_mem_of {l : List String} {x : String} (id : String)
    (h : memStr x l = true) : memStr x (addProcessed l id) = true := by
  unfold addProcessed
  split
  · exact h
  · rw [memStr_append, h, Bool.true_or]

lemma addProcessed_mem_self (l : List String) (id : String) :
    memStr id (addProcessed l id) = true := by
  unfold addProcessed
  split
  · assumption
  · rw [memStr_append]
    simp [memStr]

lemma mem_of_addProcessed {l : List String} {x id : String}
    (h : memStr x (addProcessed l id) = true) : memStr x l = true ∨ x = id := by
  unfold addProcessed at h
  split at h
  · exact Or.inl h
  · rw [memStr_append] at h
    rcases Bool.or_eq_true_iff.mp h with h1 | h1
    · exact Or.inl h1
    · right
      by_cases hx : x = id
      · exact hx
      · simp [memStr, hx] at h1

lemma visBranch_not_cond (acc : PassAcc) (tp : ToolPart)
    (h : ¬ (tp.toolType = "tool-visualizeCurlingShot" ∧ tp.output.success = true
            ∧ tp.output.visualization.isSome = true)) :
    visBranch acc tp = acc := by
  cases hv : tp.output.visualization with
  | none => simp only [visBranch, hv]
  | some viz =>
    simp only [visBranch, hv]
    rw [if_neg]
    intro hc
    exact h ⟨hc.1, hc.2, by rw [hv]; rfl⟩

lemma setBranch_not_cond (acc : PassAcc) (tp : ToolPart)
    (h : ¬ (tp.toolType = "tool-setShotId" ∧ tp.output.success = true
            ∧ tp.output.updateShotId = true)) :
    setBranch acc tp = acc := by
  rw [setBranch, if_neg h]

lemma visBranch_processed_mono (acc : PassAcc) (tp : ToolPart) (x : String)
    (h : memStr x acc.state.processedToolCalls = true) :
    memStr x (visBranch acc tp).state.processedToolCalls = true := by
  cases hv : tp.output.visualization with
  | none => simpa only [visBranch, hv] using h
  | some viz =>
    simp only [visBranch, hv]
    split
    · exact addProcessed_mem_of _ h
    · exact h

lemma setBranch_processed_mono (acc : PassAcc) (tp : ToolPart) (x : String)
    (h : memStr x acc.state.processedToolCalls = true) :
    memStr x (setBranch acc tp).state.processedToolCalls = true := by
  rw [setBranch]
  split
  · exact addProcessed_mem_of _ h
  · exact h

lemma observeToolPart_processed_mono (snapshot : List String) (acc : PassAcc)
    (tp : ToolPart) (x : String)
    (h : memStr x acc.state.processedToolCalls = true) :
    memStr x (observeToolPart snapshot acc tp).state.processedToolCalls = true := by
  rw [observeToolPart]
  split
  · exact h
  · exact setBranch_processed_mono _ _ _ (visBranch_processed_mono _ _ _ h)

lemma observeToolPart_skip (snapshot : List String) (acc : PassAcc) (tp : ToolPart)
    (h : memStr tp.toolCallId snapshot = true) :
    observeToolPart snapshot acc tp = acc := by
  rw [observeToolPart, if_pos h]

lemma observeToolPart_not_dispatchable (snapshot : List String) (acc : PassAcc)
    (tp : ToolPart) (h : dispatchable tp = false) :
    observeToolPart snapshot acc tp = acc := by
  obtain ⟨h1, h2⟩ := Bool.or_eq_false_iff.mp h
  rw [decide_eq_false_iff_not] at h1 h2
  rw [observeToolPart]
  split
  · rfl
  · rw [visBranch_not_cond _ _ h1, setBranch_not_cond _ _ h2]

lemma observeToolPart_adds (snapshot : List String) (acc : PassAcc) (tp : ToolPart)
    (h1 : memStr tp.toolCallId snapshot = false) (h2 : dispatchable tp = true) :
    memStr tp.toolCallId (observeToolPart snapshot acc tp).state.processedToolCalls = true := by
  rw [observeToolPart, if_neg (by simp [h1])]
  by_cases hc : tp.toolType = "tool-setShotId" ∧ tp.output.success = true
      ∧ tp.output.updateShotId = true
  · rw [setBranch, if_pos hc]
    exact addProcessed_mem_self _ _
  · rw [setBranch_not_cond _ _ hc]
    have hvc : tp.toolType = "tool-visualizeCurlingShot" ∧ tp.output.success = true
        ∧ tp.output.visualization.isSome = true := by
      rcases Bool.or_eq_true_iff.mp h2 with h | h
      · exact of_decide_eq_true h
      · exact absurd (of_decide_eq_true h) hc
    obtain ⟨ht, hs, hv⟩ := hvc
    cases hvz : tp.output.visualization with
    | none => rw [hvz] at hv; simp at hv
    | some viz =>
      simp only [visBranch, hvz]
      rw [if_pos ⟨ht, hs⟩]
      exact addProcessed_mem_self _ _

lemma observerFold_processed_mono (snapshot : List String) :
    ∀ (l : List ToolPart) (acc : PassAcc) (x : String),
      memStr x acc.state.processedToolCalls = true →
      memStr x (observerFold snapshot acc l).state.processedToolCalls = true
  | [], _, _, h => h
  | tp :: rest, acc, x, h =>
    observerFold_processed_mono snapshot rest _ x
      (observeToolPart_processed_mono snapshot acc tp x h)

lemma observerFold_covers (snapshot : List String) :
    ∀ (l : List ToolPart) (acc : PassAcc),
      (∀ x, memStr x snapshot = true → memStr x acc.state.processedToolCalls = true) →
      ∀ tp ∈ l,
        memStr tp.toolCallId (observerFold snapshot acc l).state.processedToolCalls = true
          ∨ dispatchable tp = false
  | [], _, _, tp, htp => absurd htp (List.not_mem_nil tp)
  | tp0 :: rest, acc, hinv, tp, htp => by
    have hinv' : ∀ x, memStr x snapshot = true →
        memStr x (observeToolPart snapshot acc tp0).state.processedToolCalls = true :=
      fun x hx => observeToolPart_processed_mono snapshot acc tp0 x (hinv x hx)
    rw [observerFold]
    rcases List.mem_cons.mp htp with heq | hmem
    · subst heq
      by_cases hd : dispatchable tp = true
      · left
        by_cases hs : memStr tp.toolCallId snapshot = true
        · exact observerFold_processed_mono snapshot rest _ _ (hinv' _ hs)
        · have h1 : memStr tp.toolCallId snapshot = false := by
            simpa using hs
          exact observerFold_processed_mono snapshot rest _ _
            (observeToolPart_adds snapshot acc tp h1 hd)
      · right
        simpa using hd
    · exact observerFold_covers snapshot rest _ hinv' tp hmem

lemma observerFold_noop (snapshot : List String) :
    ∀ (l : List ToolPart) (acc : PassAcc),
      (∀ tp ∈ l, memStr tp.toolCallId snapshot = true ∨ dispatchable tp = false) →
      observerFold snapshot acc l = acc
  | [], _, _ => rfl
  | tp :: rest, acc, h => by
    rw [observerFold]
    have hstep : observeToolPart snapshot acc tp = acc := by
      rcases h tp (List.mem_cons_self tp rest) with hs | hd
      · exact observeToolPart_skip _ _ _ hs
      · exact observeToolPart_not_dispatchable _ _ _ hd
    rw [hstep]
    exact observerFold_noop snapshot rest acc (fun q hq => h q (List.mem_cons_of_mem _ hq))

lemma setBranch_processed_origin {acc : PassAcc} {tp : ToolPart} {x : String}
    (h : memStr x (setBranch acc tp).state.processedToolCalls = true) :
    memStr x acc.state.processedToolCalls = true
      ∨ (tp.toolCallId = x ∧ dispatchable tp = true) := by
  rw [setBranch] at h
  split at h
  · dsimp only at h
    rcases mem_of_addProcessed h with h1 | h1
    · exact Or.inl h1
    · refine Or.inr ⟨h1.symm, ?_⟩
      rename_i hc
      exact Bool.or_eq_true_iff.mpr (Or.inr (decide_eq_true hc))
  · exact Or.inl h

lemma visBranch_processed_origin {acc : PassAcc} {tp : ToolPart} {x : String}
    (h : memStr x (visBranch acc tp).state.processedToolCalls = true) :
    memStr x acc.state.processedToolCalls = true
      ∨ (tp.toolCallId = x ∧ dispatchable tp = true) := by
  cases hv : tp.output.visualization with
  | none =>
    simp only [visBranch, hv] at h
    exact Or.inl h
  | some viz =>
    simp only [visBranch, hv] at h
    split at h
    · dsimp only at h
      rcases mem_of_addProcessed h with h1 | h1
      · exact Or.inl h1
      · refine Or.inr ⟨h1.symm, ?_⟩
        rename_i hc
        refine Bool.or_eq_true_iff.mpr (Or.inl (decide_eq_true ?_))
        exact ⟨hc.1, hc.2, by rw [hv]; rfl⟩
    · exact Or.inl h

lemma observeToolPart_processed_origin {snapshot : List String} {acc : PassAcc}
    {tp : ToolPart} {x : String}
    (h : memStr x (observeToolPart snapshot acc tp).state.processedToolCalls = true) :
    memStr x acc.state.processedToolCalls = true
      ∨ (tp.toolCallId = x ∧ dispatchable tp = true) := by
  rw [observeToolPart] at h
  split at h
  · exact Or.inl h
  · rcases setBranch_processed_origin h with h1 | h1
    · exact visBranch_processed_origin h1
    · exact Or.inr h1

lemma observerFold_processed_origin (snapshot : List String) :
    ∀ (l : List ToolPart) (acc : PassAcc) (x : String),
      memStr x (observerFold snapshot acc l).state.processedToolCalls = true →
      memStr x acc.state.processedToolCalls = true
        ∨ ∃ tp ∈ l, tp.toolCallId = x ∧ dispatchable tp = true
  | [], _, _, h => Or.inl h
  | tp0 :: rest, acc, x, h => by
    rw [observerFold] at h
    rcases observerFold_processed_origin snapshot rest _ x h with h1 | h1
    · rcases observeToolPart_processed_origin h1 with h2 | h2
      · exact Or.inl h2
      · exact Or.inr ⟨tp0, List.mem_cons_self tp0 rest, h2⟩
    · obtain ⟨tp, htp, hx⟩ := h1
      exact Or.inr ⟨tp, List.mem_cons_of_mem _ htp, hx⟩

lemma dispatchable_false_of_unrecognized (tp : ToolPart)
    (h1 : tp.toolType ≠ "tool-visualizeCurlingShot")
    (h2 : tp.toolType ≠ "tool-setShotId") :
    dispatchable tp = false := by
  simp [dispatchable, h1, h2]

lemma dispatchable_false_of_failure (tp : ToolPart)
    (h : tp.output.success = false) :
    dispatchable tp = false := by
  simp [dispatchable, h]

lemma observerPass_noop (s : UIState) (msgs : List Message)
    (h : ∀ tp ∈ outputParts msgs, dispatchable tp = false) :
    observerPass s msgs = { state := s, dispatched := [], fetches := [] } := by
  rw [observerPass]
  exact observerFold_noop _ _ _ (fun tp htp => Or.inr (h tp htp))

lemma observerPass_single (s : UIState) (mid : String) (tp : ToolPart)
    (hstate : tp.state = PartState.outputAvailable) :
    observerPass s [{ id := mid, role := Role.assistant, parts := [MsgPart.tool tp] }]
      = observeToolPart s.processedToolCalls
          { state := s, dispatched := [], fetches := [] } tp := by
  rw [observerPass]
  have hparts : outputParts [⟨mid, Role.assistant, [MsgPart.tool tp]⟩] = [tp] := by
    simp [outputParts, hstate]
  rw [hparts]
  rfl

lemma visBranch_fires (acc : PassAcc) (tp : ToolPart) (viz : Visualization)
    (hv : tp.output.visualization = some viz)
    (ht : tp.toolType = "tool-visualizeCurlingShot")
    (hs : tp.output.success = true) :
    visBranch acc tp =
      { state :=
          { acc.state with
              currentShot := some
                { stones := some viz.stones
                  shot := none
                  shotInfo := some
                    { player := viz.player, team := viz.team
                      type := viz.shotType, shotId := viz.shotId } }
              processedToolCalls := addProcessed acc.state.processedToolCalls tp.toolCallId }
        dispatched := acc.dispatched ++ [tp.toolCallId]
        fetches := acc.fetches } := by
  rw [visBranch.eq_def, hv]
  split
  · rename_i x v heq
    injection heq with h
    subst h
    rw [if_pos ⟨ht, hs⟩]
  · rename_i x heq
    cases heq

lemma setBranch_fires (acc : PassAcc) (tp : ToolPart)
    (ht : tp.toolType = "tool-setShotId")
    (hs : tp.output.success = true)
    (hu : tp.output.updateShotId = true) :
    setBranch acc tp =
      { state :=
          { acc.state with
              shotId := tp.output.shotId
              processedToolCalls := addProcessed acc.state.processedToolCalls tp.toolCallId }
        dispatched := acc.dispatched ++ [tp.toolCallId]
        fetches := acc.fetches ++ [tp.output.shotId] } := by
  rw [setBranch, if_pos ⟨ht, hs, hu⟩]

lemma mentionsNotFound_concat (s : String) :
    mentionsNotFound (s ++ " not found") = true := by
  rw [mentionsNotFound, String.data_append]
  have h : (" not found".data) = (" ".data) ++ ("not found".data) := by decide
  rw [h, ← List.append_assoc]
  exact endsWithChars_append _ _

/-- Claim C1, counterexample: one observer pass over a message list that contains
the same `output-available` `tool-setShotId` part (same toolCallId `dup`) twice
dispatches that id twice, issuing two dependent fetches — the second encounter
inside the same pass is not skipped, because the skip guard consults the
ProcessedCallSet snapshot captured at the start of the effect run, which does
not yet contain the id. -/
theorem duplicate_within_pass_double_dispatch :
    (observerPass initialUIState
        [{ id := "m1", role := Role.assistant
           parts := [MsgPart.tool
             { toolType := "tool-setShotId", toolCallId := "dup"
               state := PartState.outputAvailable
               output := setShotId_execute 7 none },
            MsgPart.tool
             { toolType := "tool-setShotId", toolCallId := "dup"
               state := PartState.outputAvailable
               output := setShotId_execute 7 none }] }]).dispatched = ["dup", "dup"]
      ∧ (observerPass initialUIState
        [{ id := "m1", role := Role.assistant
           parts := [MsgPart.tool
             { toolType := "tool-setShotId", toolCallId := "dup"
               state := PartState.outputAvailable
               output := setShotId_execute 7 none },
            MsgPart.tool
             { toolType := "tool-setShotId", toolCallId := "dup"
               state := PartState.outputAvailable
               output := setShotId_execute 7 none }] }]).fetches = [some 7, some 7] := by
  constructor
  · decide
  · decide

/-- Claim C1, amended: deduplication holds across successive observer passes.
Re-running the observer over the same message list after a pass dispatches
nothing and changes nothing: every id accepted by the first pass is in
ProcessedCallSet and is skipped, and every part the first pass did not accept
still fails its dispatch condition.  Within one pass, however, the guard
checks the snapshot taken at the start of the pass, so a toolCallId duplicated
inside one list is dispatched once per occurrence (see the counterexample). -/
theorem observer_second_pass_noop (s : UIState) (msgs : List Message) :
    observerPass (observerPass s msgs).state msgs
      = { state := (observerPass s msgs).state, dispatched := [], fetches := [] } := by
  have hcov := observerFold_covers s.processedToolCalls (outputParts msgs)
      { state := s, dispatched := [], fetches := [] } (fun _ hx => hx)
  rw [observerPass, observerPass]
  apply observerFold_noop
  intro tp htp
  rcases hcov tp htp with h1 | h1
  · exact Or.inl h1
  · exact Or.inr h1

/-- Claim C2: the model/tool step loop of one turn performs at most 10 steps for
every behaviour, and a model that requests another automatically-executed tool
call at every step terminates after exactly 10 steps with the forced but
normal `stepLimitReached` finish (the result type has no error outcome). -/
theorem model_loop_bounded :
    (∀ behaviour : Nat → StepAction, (modelTurn behaviour).1 ≤ 10) ∧
    (∀ behaviour : Nat → StepAction,
      (∀ k, behaviour k = StepAction.toolCallAuto) →
      modelTurn behaviour = (10, FinishReason.stepLimitReached)) := by
  constructor
  · intro b
    simpa using runLoop_le b 10 0
  · intro b hb
    rw [modelTurn, runLoop_always_auto b hb 10 0]

/-- Claim C2, witness: the always-tool-calling behaviour stops at exactly 10
steps, and the bound holds for it. -/
theorem model_loop_bounded_witness :
    modelTurn (fun _ => StepAction.toolCallAuto) = (10, FinishReason.stepLimitReached)
      ∧ (modelTurn (fun _ => StepAction.toolCallAuto)).1 ≤ 10 :=
  ⟨model_loop_bounded.2 _ (fun _ => rfl), model_loop_bounded.1 _⟩

/-- Claim C3: `queryShotDetails.execute` turns every failure behaviour of the
query interface (binding absent, lookup throwing, record absent) into a
structured `{success:false, error}` value — the function is total, so no
exception escapes — with an error text ending in `not found` when the record
is absent; and an observer pass over `tool-queryShotDetails` parts leaves
VisualizationState, the tracked shot id and ProcessedCallSet unchanged. -/
theorem queryShotDetails_failure_contained :
    (∀ (sid : Int) (db : ShotDb), db.isFailure = true →
      (queryShotDetails_execute sid db).success = false
        ∧ ((queryShotDetails_execute sid db).error).isSome = true) ∧
    (∀ sid : Int,
      (queryShotDetails_execute sid ShotDb.notFound).error
          = some ("Shot with ID " ++ toString sid ++ " not found")
        ∧ mentionsNotFound ("Shot with ID " ++ toString sid ++ " not found") = true) ∧
    (∀ (s : UIState) (msgs : List Message),
      (∀ tp ∈ outputParts msgs, tp.toolType = "tool-queryShotDetails") →
      observerPass s msgs = { state := s, dispatched := [], fetches := [] }) := by
  refine ⟨?_, ?_, ?_⟩
  · intro sid db hdb
    cases db with
    | notConfigured => exact ⟨rfl, rfl⟩
    | throws msg => exact ⟨rfl, rfl⟩
    | notFound => exact ⟨rfl, rfl⟩
    | found rec stones => simp [ShotDb.isFailure] at hdb
  · intro sid
    exact ⟨rfl, mentionsNotFound_concat _⟩
  · intro s msgs h
    apply observerPass_noop
    intro tp htp
    apply dispatchable_false_of_unrecognized
    · rw [h tp htp]
      decide
    · rw [h tp htp]
      decide

/-- Claim C3, witness: the not-found behaviour at shot id 9999 and an observer
pass over the resulting part. -/
theorem queryShotDetails_failure_contained_witness :
    (queryShotDetails_execute 9999 ShotDb.notFound).success = false
      ∧ (queryShotDetails_execute 9999 ShotDb.notFound).error
          = some ("Shot with ID " ++ toString (9999 : Int) ++ " not found")
      ∧ mentionsNotFound ("Shot with ID " ++ toString (9999 : Int) ++ " not found") = true
      ∧ observerPass initialUIState
          [{ id := "m1", role := Role.assistant
             parts := [MsgPart.tool
               { toolType := "tool-queryShotDetails", toolCallId := "c9"
                 state := PartState.outputAvailable
                 output := queryShotDetails_execute 9999 ShotDb.notFound }] }]
          = { state := initialUIState, dispatched := [], fetches := [] } :=
  ⟨(queryShotDetails_failure_contained.1 9999 ShotDb.notFound rfl).1,
   (queryShotDetails_failure_contained.2.1 9999).1,
   (queryShotDetails_failure_contained.2.1 9999).2,
   queryShotDetails_failure_contained.2.2 initialUIState _ (by decide)⟩

/-- Claim C4: sanitization is idempotent — cleaning an already cleaned history
returns it unchanged.  The sanitizer is modelled from the spec (its
implementation lives in `./utils`, which is not among the provided sources)
and is a pure function by construction, so it performs no I/O and has no side
effects. -/
theorem cleanupMessages_idempotent (msgs : List Message) :
    cleanupMessages (cleanupMessages msgs) = cleanupMessages msgs := by
  rw [cleanupMessages, cleanupMessages, List.reverse_reverse, cleanupRev_idem]

/-- Claim C5: `visualizeCurlingShot.execute` returns `{success:true}` with a
`visualization` payload echoing the input fields exactly; and an observer that
accepts such an `output-available` part replaces VisualizationState wholesale:
the resulting `currentShot` holds exactly the stones of the call and a `shotInfo`
rebuilt from the player/team/shotType/shotId of the call, with all previous state
discarded (the result does not depend on the prior `currentShot`). -/
theorem visualizeCurlingShot_replaces_state (i : VisInput) (s : UIState)
    (mid cid : String) (h : memStr cid s.processedToolCalls = false) :
    visualizeCurlingShot_execute i =
      { success := true
        visualization := some
          { shotId := i.shotId, player := i.player, team := i.team
            shotType := i.shotType, stones := i.stones }
        message := some ("Visualized shot " ++ toString i.shotId ++ " by " ++ i.player
          ++ " (" ++ i.team ++ "): " ++ i.shotType ++ " with "
          ++ toString i.stones.length ++ " stones in play.") } ∧
    observerPass s [{ id := mid, role := Role.assistant,
                      parts := [MsgPart.tool
                        { toolType := "tool-visualizeCurlingShot", toolCallId := cid,
                          state := PartState.outputAvailable,
                          output := visualizeCurlingShot_execute i }] }]
      = { state :=
            { currentShot := some
                { stones := some i.stones
                  shot := none
                  shotInfo := some { player := i.player, team := i.team
                                     type := i.shotType, shotId := i.shotId } }
              shotId := s.shotId
              processedToolCalls := addProcessed s.processedToolCalls cid }
          dispatched := [cid]
          fetches := [] } := by
  constructor
  · rfl
  · rw [observerPass_single s mid _ rfl]
    rw [observeToolPart, if_neg (by simp [h])]
    have hnc : ¬ (("tool-visualizeCurlingShot" : String) = "tool-setShotId"
        ∧ (visualizeCurlingShot_execute i).success = true
        ∧ (visualizeCurlingShot_execute i).updateShotId = true) := by
      intro hc
      exact absurd hc.1 (by decide)
    rw [setBranch_not_cond _ _ hnc]
    rw [visBranch_fires _ _ _ rfl rfl rfl]
    rfl

/-- Claim C5, witness: the sample visualization input applied to the initial
client state. -/
theorem visualizeCurlingShot_replaces_state_witness :
    memStr "c1" initialUIState.processedToolCalls = false ∧
    (observerPass initialUIState sampleVisMsgs).state.currentShot
        = some { stones := some sampleVisInput.stones
                 shot := none
                 shotInfo := some { player := sampleVisInput.player
                                    team := sampleVisInput.team
                                    type := sampleVisInput.shotType
                                    shotId := sampleVisInput.shotId } } ∧
    (observerPass initialUIState sampleVisMsgs).dispatched = ["c1"] :=
  ⟨rfl, by
    have h := visualizeCurlingShot_replaces_state sampleVisInput initialUIState "m1" "c1" rfl
    rw [show sampleVisMsgs = [{ id := "m1", role := Role.assistant,
                                parts := [MsgPart.tool
                                  { toolType := "tool-visualizeCurlingShot",
                                    toolCallId := "c1",
                                    state := PartState.outputAvailable,
                                    output := visualizeCurlingShot_execute sampleVisInput }] }]
          from rfl, h.2], by
    have h := visualizeCurlingShot_replaces_state sampleVisInput initialUIState "m1" "c1" rfl
    rw [show sampleVisMsgs = [{ id := "m1", role := Role.assistant,
                                parts := [MsgPart.tool
                                  { toolType := "tool-visualizeCurlingShot",
                                    toolCallId := "c1",
                                    state := PartState.outputAvailable,
                                    output := visualizeCurlingShot_execute sampleVisInput }] }]
          from rfl, h.2]⟩

/-- Claim C6: `setShotId.execute` returns `{success:true, shotId, updateShotId:
true}`; an observer that accepts such an `output-available` part updates the
tracked shot identifier to that shotId and issues exactly one dependent fetch
keyed by it; and a successful fetch result (success with shot and stones
present) replaces VisualizationState wholesale with the fetched data. -/
theorem setShotId_updates_and_fetches (sid : Int) (reason : Option String)
    (s : UIState) (mid cid : String) (h : memStr cid s.processedToolCalls = false) :
    setShotId_execute sid reason =
      { success := true
        shotId := some sid
        message := some (jsOrStr reason ("Updated display to show shot " ++ toString sid))
        updateShotId := true } ∧
    observerPass s [{ id := mid, role := Role.assistant,
                      parts := [MsgPart.tool
                        { toolType := "tool-setShotId", toolCallId := cid,
                          state := PartState.outputAvailable,
                          output := setShotId_execute sid reason }] }]
      = { state := { currentShot := s.currentShot
                     shotId := some sid
                     processedToolCalls := addProcessed s.processedToolCalls cid }
          dispatched := [cid]
          fetches := [some sid] } ∧
    (∀ (t : UIState) (data : ShotData),
      data.success = true → data.shot.isSome = true → data.stones.isSome = true →
      (handleShotQuery (some sid) (FetchOutcome.ok data) t).1
        = { t with currentShot := some { stones := data.stones, shot := data.shot
                                         shotInfo := none } }) := by
  refine ⟨rfl, ?_, ?_⟩
  · rw [observerPass_single s mid _ rfl]
    rw [observeToolPart, if_neg (by simp [h])]
    have hne : ("tool-setShotId" : String) ≠ "tool-visualizeCurlingShot" := by decide
    have hvn : visBranch { state := s, dispatched := [], fetches := [] }
        { toolType := "tool-setShotId", toolCallId := cid,
          state := PartState.outputAvailable,
          output := setShotId_execute sid reason }
        = { state := s, dispatched := [], fetches := [] } := by
      apply visBranch_not_cond
      intro hc
      exact hne hc.1
    rw [hvn, setBranch_fires _ _ rfl rfl rfl]
    rfl
  · intro t data h1 h2 h3
    rw [handleShotQuery, if_pos (by rw [h1, h2, h3]; rfl)]

/-- Claim C6, witness: setting shot id 55 from the initial client state, and a
successful fetch result replacing the visualization. -/
theorem setShotId_updates_and_fetches_witness :
    memStr "c2" initialUIState.processedToolCalls = false ∧
    observerPass initialUIState [{ id := "m1", role := Role.assistant,
                                   parts := [MsgPart.tool
                                     { toolType := "tool-setShotId", toolCallId := "c2",
                                       state := PartState.outputAvailable,
                                       output := setShotId_execute 55 none }] }]
      = { state := { currentShot := none
                     shotId := some 55
                     processedToolCalls := ["c2"] }
          dispatched := ["c2"]
          fetches := [some 55] } ∧
    (handleShotQuery (some 55)
        (FetchOutcome.ok { success := true
                           shot := some { shot_id := 55, shot_number := 1
                                          shot_color := "red", shot_team := "SWE"
                                          player_name := "Anna", shot_type := "Draw"
                                          turn := "In", percent_score := 95
                                          end_number := 3, color_hammer := "red"
                                          event_name := "Worlds" }
                           stones := some sampleStones })
        initialUIState).1.currentShot
      = some { stones := some sampleStones
               shot := some { shot_id := 55, shot_number := 1
                              shot_color := "red", shot_team := "SWE"
                              player_name := "Anna", shot_type := "Draw"
                              turn := "In", percent_score := 95
                              end_number := 3, color_hammer := "red"
                              event_name := "Worlds" }
               shotInfo := none } := by
  refine ⟨rfl, ?_, ?_⟩
  · have h := setShotId_updates_and_fetches 55 none initialUIState "m1" "c2" rfl
    rw [h.2.1]
    rfl
  · have h := setShotId_updates_and_fetches 55 none initialUIState "m1" "c2" rfl
    have hd := h.2.2 initialUIState
      { success := true,
        shot := some { shot_id := 55, shot_number := 1,
                       shot_color := "red", shot_team := "SWE",
                       player_name := "Anna", shot_type := "Draw",
                       turn := "In", percent_score := 95,
                       end_number := 3, color_hammer := "red",
                       event_name := "Worlds" },
        stones := some sampleStones } rfl rfl rfl
    rw [hd]

/-- Claim C7: ProcessedCallSet grows monotonically — after any observer pass the
set contains every id it contained before the pass.  In the model every update
site is `addProcessed` (the image of `new Set(prev).add(toolCallId)`), which
only ever appends, and no other operation of the session touches the set. -/
theorem processedCallSet_monotone (s : UIState) (msgs : List Message) (x : String)
    (h : memStr x s.processedToolCalls = true) :
    memStr x ((observerPass s msgs).state).processedToolCalls = true := by
  rw [observerPass]
  exact observerFold_processed_mono _ _ _ _ h

/-- Claim C7, witness: an id present before a pass over the sample messages is
still present afterwards. -/
theorem processedCallSet_monotone_witness :
    memStr "a" uiStateWithA.processedToolCalls = true ∧
    memStr "a" ((observerPass uiStateWithA sampleVisMsgs).state).processedToolCalls = true :=
  ⟨rfl, processedCallSet_monotone uiStateWithA sampleVisMsgs "a" rfl⟩

/-- Claim C8: an observer pass over `output-available` parts whose tool name is
neither `tool-visualizeCurlingShot` nor `tool-setShotId` (queryDatabase,
queryShotDetails, unknown future tools) leaves VisualizationState, the tracked
shot identifier and ProcessedCallSet all unchanged and issues no fetch. -/
theorem unrecognized_tools_noop (s : UIState) (msgs : List Message)
    (h : ∀ tp ∈ outputParts msgs, tp.toolType ≠ "tool-visualizeCurlingShot"
          ∧ tp.toolType ≠ "tool-setShotId") :
    observerPass s msgs = { state := s, dispatched := [], fetches := [] } :=
  observerPass_noop s msgs (fun tp htp =>
    dispatchable_false_of_unrecognized tp (h tp htp).1 (h tp htp).2)

/-- Claim C8, witness: a pass over queryDatabase, queryShotDetails and an
unknown tool leaves everything unchanged. -/
theorem unrecognized_tools_noop_witness :
    observerPass initialUIState sampleOtherToolMsgs
      = { state := initialUIState, dispatched := [], fetches := [] } :=
  unrecognized_tools_noop initialUIState sampleOtherToolMsgs (by decide)

/-- Claim C9: a toolCallId enters ProcessedCallSet only through a successful
dispatch — a recognized tool name with a truthy `success` and the expected
payload (`visualization` respectively `updateShotId`).  A pass over parts all
carrying `success:false` changes nothing and marks nothing processed, so such
parts are re-examined and re-skipped by every subsequent pass; and any id in
the set after a pass was either there before or belongs to a part satisfying
the dispatch condition. -/
theorem processed_marks_only_successful_dispatch :
    (∀ (s : UIState) (msgs : List Message),
      (∀ tp ∈ outputParts msgs, tp.output.success = false) →
      observerPass s msgs = { state := s, dispatched := [], fetches := [] }) ∧
    (∀ (s : UIState) (msgs : List Message) (x : String),
      memStr x ((observerPass s msgs).state).processedToolCalls = true →
      memStr x s.processedToolCalls = true
        ∨ ∃ tp ∈ outputParts msgs, tp.toolCallId = x ∧ dispatchable tp = true) := by
  constructor
  · intro s msgs h
    exact observerPass_noop s msgs
      (fun tp htp => dispatchable_false_of_failure tp (h tp htp))
  · intro s msgs x h
    rw [observerPass] at h
    exact observerFold_processed_origin _ _ _ _ h

/-- Claim C9, witness: failing results dispatch nothing, and the id `c1`
processed by a pass over the sample visualization message belongs to a
dispatchable part. -/
theorem processed_marks_only_successful_dispatch_witness :
    observerPass initialUIState sampleFailingMsgs
        = { state := initialUIState, dispatched := [], fetches := [] } ∧
    (memStr "c1" initialUIState.processedToolCalls = true
      ∨ ∃ tp ∈ outputParts sampleVisMsgs, tp.toolCallId = "c1" ∧ dispatchable tp = true) :=
  ⟨processed_marks_only_successful_dispatch.1 initialUIState sampleFailingMsgs (by decide),
   processed_marks_only_successful_dispatch.2 initialUIState sampleVisMsgs "c1" (by decide)⟩

/-- Claim C10: `queryDatabase.execute` guards the database behind a SELECT
check on the trimmed, lowercased query: when the check fails it returns a
structured `{success:false, error}` without invoking the database at all, and
when the check passes (which includes strings such as one beginning with the
word `selection`) the query is submitted to the configured database. -/
theorem queryDatabase_select_only (query : String) (params : Option (List String))
    (db : QueryDb) :
    (selectGuard query = false →
      queryDatabase_execute query params db =
        { output := { success := false
                      error := some "Only SELECT queries are allowed with this tool. Use querySQLiteDatabase for other operations." }
          dbInvoked := false }) ∧
    (selectGuard query = true → db ≠ QueryDb.absent →
      (queryDatabase_execute query params db).dbInvoked = true) := by
  constructor
  · intro hg
    rw [queryDatabase_execute.eq_def, if_pos hg]
  · intro hg hdb
    rw [queryDatabase_execute.eq_def, if_neg (by rw [hg]; decide)]
    cases db with
    | absent => exact absurd rfl hdb
    | throws msg => rfl
    | ok rows dbMeta => rfl

/-- Claim C10, witness: a DROP statement is rejected without touching the
database, while a query beginning with the word `selection` (after trimming
and lowercasing) passes the guard and is submitted. -/
theorem queryDatabase_select_only_witness :
    queryDatabase_execute "DROP TABLE games" none QueryDb.absent =
      { output := { success := false
                    error := some "Only SELECT queries are allowed with this tool. Use querySQLiteDatabase for other operations." }
        dbInvoked := false } ∧
    (queryDatabase_execute "  SELECTion of stones  " none (QueryDb.ok [] "ok")).dbInvoked
      = true :=
  ⟨(queryDatabase_select_only "DROP TABLE games" none QueryDb.absent).1 (by decide),
   (queryDatabase_select_only "  SELECTion of stones  " none (QueryDb.ok [] "ok")).2
     (by decide) (by decide)⟩

end Curling
